import Mathlib

/-!
Verification of the Whisper transcription backend.

We give a shallow embedding of the transcription service
(`src/backend/src/services/transcription_service.py`) and the persistence
layer (`src/backend/src/db/crud/crud_transcript.py`), and prove the
specified properties about them.

Modelling conventions:
* Audio payloads are byte lists (`List Nat`); only their length matters to
  the code under verification.
* The external Groq API call is an input to the orchestrator: an
  `Except String String` carrying either the transcribed text or the
  error message the API raised with.
* Database effects: the store is a `Store` value threaded explicitly.
  `create_transcript` may fail with a `SQLAlchemyError`; the outcomes of
  successive create calls are supplied as a plan `List (Option String)`
  (`none` = the insert commits, `some msg` = the database raises `msg`
  and the transaction is rolled back).  The unconsumed suffix of the plan
  is returned, so the number of persistence attempts is observable.
* Server-generated values: `id` is drawn from a fresh-id counter
  (`uuid.uuid4` never collides with existing rows) and `created_at` from a
  strictly increasing logical clock (`func.now()` at insert time).
-/

namespace Whisper

/-- Status enum from `schemas/transcript.py` (`TranscriptStatus`). -/
inductive TranscriptStatus
  | completed
  | failed
deriving DecidableEq, Repr

/-- Input schema `TranscriptCreate` from `schemas/transcript.py`:
the caller-supplied fields of a transcript record. -/
structure TranscriptCreate where
  source_filename : String
  duration_seconds : Nat
  raw_text : String
  status : TranscriptStatus
deriving DecidableEq, Repr

/-- A row of the `transcripts` table (`db/models.py`), with the
server-generated `id` and `created_at` populated. -/
structure Transcript where
  id : Nat
  source_filename : String
  duration_seconds : Nat
  raw_text : String
  status : TranscriptStatus
  created_at : Nat
deriving DecidableEq, Repr

/-- The database state: the rows of the `transcripts` table in insertion
order, the fresh-id counter and the server clock. -/
structure Store where
  rows : List Transcript
  nextId : Nat
  now : Nat
deriving Repr

/-- Well-formedness maintained by the server: every stored row was assigned
its id and timestamp before the current counter/clock values. -/
def Store.WF (db : Store) : Prop :=
  ∀ r ∈ db.rows, r.id < db.nextId ∧ r.created_at < db.now

/-- Function `crud_transcript.create_transcript`: insert one row built from the
schema data, commit, refresh (returning the row with the DB-generated
`id` and `created_at`); on `SQLAlchemyError` roll back and re-raise.
The head of `env` is the outcome of this call. -/
def create_transcript (db : Store) (transcript : TranscriptCreate)
    (env : List (Option String)) :
    Except String (Store × Transcript) × List (Option String) :=
  match env.headD none with
  | some msg => (.error msg, env.tail)
  | none =>
    let db_transcript : Transcript :=
      { id := db.nextId
        source_filename := transcript.source_filename
        duration_seconds := transcript.duration_seconds
        raw_text := transcript.raw_text
        status := transcript.status
        created_at := db.now }
    (.ok ({ rows := db.rows ++ [db_transcript],
            nextId := db.nextId + 1,
            now := db.now + 1 }, db_transcript), env.tail)

/-- Function `crud_transcript.get_transcript_by_id`: first row whose id matches,
or `none`. -/
def get_transcript_by_id (db : Store) (transcript_id : Nat) :
    Option Transcript :=
  db.rows.find? (fun t => t.id == transcript_id)

/-- Comparator for `order_by(desc(Transcript.created_at))`: newest first. -/
def created_desc (a b : Transcript) : Bool :=
  b.created_at ≤ a.created_at

/-- Function `crud_transcript.get_all_transcripts`: all rows ordered by
`created_at` descending, then `offset skip`, then `limit`. -/
def get_all_transcripts (db : Store) (skip : Nat := 0) (limit : Nat := 100) :
    List Transcript :=
  (((db.rows.mergeSort created_desc).drop skip).take limit)

/-- Function `crud_transcript.get_transcript_count`: total number of rows. -/
def get_transcript_count (db : Store) : Nat :=
  db.rows.length

/-- Constant `MAX_FILE_SIZE = 25 * 1024 * 1024` from `transcription_service.py`. -/
def MAX_FILE_SIZE : Nat := 25 * 1024 * 1024

/-- Constant `SUPPORTED_FORMATS` from `transcription_service.py`. -/
def SUPPORTED_FORMATS : List String :=
  ["mp3", "wav", "m4a", "flac", "ogg", "webm", "mp4", "mpeg", "mpga"]

/-- Expression `filename.lower().split('.')[-1] if '.' in filename else ""`. -/
def file_extension (filename : String) : String :=
  if filename.contains ('.') then (filename.toLower.splitOn (".")).getLast! else ""

/-- Function `transcription_service.get_audio_duration`: a stub that returns 0
for every byte string (placeholder for future audio-length analysis). -/
def get_audio_duration (_audio_bytes : List Nat) : Nat :=
  0

/-- Function `transcription_service.validate_audio_file`: raise `ValueError` when
the payload exceeds `MAX_FILE_SIZE` or is empty; an unrecognized file
extension is only logged as a warning (`logger.warning`), never an error. -/
def validate_audio_file (audio_bytes : List Nat) (filename : String) :
    Except String Unit :=
  if audio_bytes.length > MAX_FILE_SIZE then
    .error ("File size exceeds 25MB limit")
  else if audio_bytes.length = 0 then
    .error ("Audio file is empty")
  else
    let ext := file_extension filename
    if ext ∈ SUPPORTED_FORMATS then .ok ()
    else .ok ()  -- logger.warning: attempting transcription anyway

/-- The errors `transcribe_and_store` can surface:
* `invalidInput` — the `ValueError` from `validate_audio_file`;
* `transcriptionFailed` — `RuntimeError("Groq transcription failed: …")`
  wrapping the API error;
* `storageFailed` — `RuntimeError("Failed to store transcript: …")`
  wrapping the database error of the success-branch insert;
* `dbError` — a `SQLAlchemyError` propagated unwrapped (raised while
  persisting the failed-evidence record inside the `except` block). -/
inductive SvcError
  | invalidInput (msg : String)
  | transcriptionFailed (wrapped : String)
  | storageFailed (wrapped : String)
  | dbError (msg : String)
deriving DecidableEq, Repr

/-- Result of one orchestrator invocation: the store after all side
effects, the returned value or surfaced error, and the unconsumed suffix
of the database-outcome plan. -/
structure SvcResult where
  store : Store
  outcome : Except SvcError (Nat × String)
  env : List (Option String)
deriving Repr

/-- Function `transcription_service.transcribe_and_store`: validate, call the Groq
API (its outcome is the input `api`), then persist success or failure.
Follows the Python control flow line by line:
validation failure aborts before any call; on API failure a
`status=failed, raw_text=""` record is persisted and `TranscriptionFailed`
raised (a database error while persisting it propagates unwrapped); on API
success the text is trimmed (`transcription.strip() if transcription else ""`),
a `status=completed` record persisted, and `(id, raw_text)` returned;
a database error there surfaces as `StorageFailed`. -/
def transcribe_and_store (db : Store) (filename : String)
    (audio_bytes : List Nat) (api : Except String String)
    (env : List (Option String)) : SvcResult :=
  match validate_audio_file audio_bytes filename with
  | .error msg => { store := db, outcome := .error (.invalidInput msg), env := env }
  | .ok () =>
    match api with
    | .error e =>
      let failed_transcript : TranscriptCreate :=
        { source_filename := filename
          duration_seconds := get_audio_duration audio_bytes
          raw_text := ""
          status := .failed }
      match create_transcript db failed_transcript env with
      | (.ok (db2, _db_transcript), env2) =>
        { store := db2, outcome := .error (.transcriptionFailed e), env := env2 }
      | (.error dbMsg, env2) =>
        { store := db, outcome := .error (.dbError dbMsg), env := env2 }
    | .ok transcription =>
      let raw_text := if transcription.isEmpty then "" else transcription.trim
      let duration_seconds := get_audio_duration audio_bytes
      let transcript_in : TranscriptCreate :=
        { source_filename := filename
          duration_seconds := duration_seconds
          raw_text := raw_text
          status := .completed }
      match create_transcript db transcript_in env with
      | (.ok (db2, db_transcript), env2) =>
        { store := db2, outcome := .ok (db_transcript.id, raw_text), env := env2 }
      | (.error dbMsg, env2) =>
        { store := db, outcome := .error (.storageFailed dbMsg), env := env2 }


/-! ## Helper lemmas -/

/-- Trimming the empty string yields the empty string. -/
theorem trim_empty : ("" : String).trim = "" := by
  have h : Substring.takeWhileAux "" 0 Char.isWhitespace 0 = 0 := by
    unfold Substring.takeWhileAux
    simp
  simp [String.trim, Substring.trim, String.toSubstring, h]
  unfold Substring.takeRightWhileAux
  simp [Substring.toString, String.extract]

/-- Python `transcription.strip() if transcription else ""` agrees with
plain trimming: the only falsy string is the empty one, whose trim is
itself empty. -/
theorem strip_eq_trim (s : String) :
    (if s.isEmpty then "" else s.trim) = s.trim := by
  by_cases h : s.isEmpty
  · rw [if_pos h, (String.isEmpty_iff s).mp h, trim_empty]
  · rw [if_neg h]

/-- Validation succeeds on every non-empty payload within the size limit,
whatever the filename. -/
theorem validate_ok_of_bounds (audio_bytes : List Nat) (filename : String)
    (h0 : audio_bytes.length ≠ 0) (hle : audio_bytes.length ≤ MAX_FILE_SIZE) :
    validate_audio_file audio_bytes filename = .ok () := by
  unfold validate_audio_file
  rw [if_neg (by omega), if_neg h0]
  simp [ite_self]

/-- Validation fails on an empty or oversized payload. -/
theorem validate_error_of_violation (audio_bytes : List Nat) (filename : String)
    (h : audio_bytes.length = 0 ∨ MAX_FILE_SIZE < audio_bytes.length) :
    ∃ m, validate_audio_file audio_bytes filename = .error m := by
  unfold validate_audio_file
  rcases h with h | h
  · refine ⟨"Audio file is empty", ?_⟩
    rw [if_neg (by omega), if_pos h]
  · exact ⟨"File size exceeds 25MB limit", by rw [if_pos h]⟩

/-! ## Claims -/

/-- C2: `validate_audio_file` fails with an `InvalidInput` error exactly
when the byte length is 0 or exceeds 25 MiB; every non-empty input of at
most 25 MiB passes, regardless of the file extension (the filename is
universally quantified). -/
theorem validate_audio_file_ok_iff (audio_bytes : List Nat) (filename : String) :
    validate_audio_file audio_bytes filename = .ok () ↔
      audio_bytes.length ≠ 0 ∧ audio_bytes.length ≤ MAX_FILE_SIZE := by
  constructor
  · intro h
    by_contra hc
    have hv : audio_bytes.length = 0 ∨ MAX_FILE_SIZE < audio_bytes.length := by
      omega
    obtain ⟨m, hm⟩ := validate_error_of_violation audio_bytes filename hv
    rw [h] at hm
    exact Except.noConfusion hm
  · intro ⟨h0, hle⟩
    exact validate_ok_of_bounds audio_bytes filename h0 hle

/-- C8: looking up an id that no stored row carries returns `none`
(the "not found" result), and no error is raised. -/
theorem get_transcript_by_id_not_found (db : Store) (tid : Nat)
    (h : ∀ r ∈ db.rows, r.id ≠ tid) :
    get_transcript_by_id db tid = none := by
  unfold get_transcript_by_id
  rw [List.find?_eq_none]
  intro r hr
  simpa using h r hr

/-- C8 witness: a concrete store with one row and a fresh id. -/
theorem get_transcript_by_id_not_found_witness :
    get_transcript_by_id
      { rows := [{ id := 0, source_filename := "a.mp3", duration_seconds := 0,
                   raw_text := "hi", status := .completed, created_at := 0 }],
        nextId := 1, now := 1 } 5 = none :=
  get_transcript_by_id_not_found _ 5 (by decide)


/-- C3: a validation failure (empty or oversized payload) aborts
`transcribe_and_store` with `InvalidInput`, leaves the store unchanged and
consumes no database outcome (no row is written), and the result does not
depend on the API behaviour (no network call is observable). -/
theorem invalid_input_aborts (db : Store) (filename : String)
    (audio_bytes : List Nat) (api api2 : Except String String)
    (env : List (Option String))
    (hbad : audio_bytes.length = 0 ∨ MAX_FILE_SIZE < audio_bytes.length) :
    (∃ m, transcribe_and_store db filename audio_bytes api env =
        { store := db, outcome := .error (.invalidInput m), env := env }) ∧
      transcribe_and_store db filename audio_bytes api env =
        transcribe_and_store db filename audio_bytes api2 env := by
  obtain ⟨m, hm⟩ := validate_error_of_violation audio_bytes filename hbad
  refine ⟨⟨m, ?_⟩, ?_⟩ <;> simp [transcribe_and_store, hm]

/-- C3 witness: the empty payload aborts with `InvalidInput` and an
unchanged store, whatever the API would have answered. -/
theorem invalid_input_aborts_witness :
    (∃ m, transcribe_and_store { rows := [], nextId := 0, now := 0 } "a.mp3"
        [] (.error "down") [] =
        { store := { rows := [], nextId := 0, now := 0 },
          outcome := .error (.invalidInput m), env := [] }) ∧
      transcribe_and_store { rows := [], nextId := 0, now := 0 } "a.mp3"
        [] (.error "down") [] =
      transcribe_and_store { rows := [], nextId := 0, now := 0 } "a.mp3"
        [] (.ok "hello") [] :=
  invalid_input_aborts _ "a.mp3" [] _ _ [] (Or.inl rfl)

/-- C1: when validation passes, the API call raises `e` and the insert
commits, exactly one row is appended — with `status=failed`,
`raw_text=""` and `duration_seconds` from the stubbed duration function —
and the call surfaces `TranscriptionFailed` wrapping `e`. -/
theorem api_failure_records_failed_row (db : Store) (filename : String)
    (audio_bytes : List Nat) (e : String) (rest : List (Option String))
    (hv : validate_audio_file audio_bytes filename = .ok ()) :
    transcribe_and_store db filename audio_bytes (.error e) (none :: rest) =
      { store :=
          { rows := db.rows ++
              [{ id := db.nextId, source_filename := filename,
                 duration_seconds := get_audio_duration audio_bytes,
                 raw_text := "", status := .failed, created_at := db.now }],
            nextId := db.nextId + 1, now := db.now + 1 },
        outcome := .error (.transcriptionFailed e), env := rest } := by
  simp [transcribe_and_store, hv, create_transcript]

/-- C1 witness: a concrete failing API call writes one failed row. -/
theorem api_failure_records_failed_row_witness :
    transcribe_and_store { rows := [], nextId := 0, now := 0 } "a.mp3" [1]
        (.error "boom") (none :: []) =
      { store :=
          { rows := [] ++
              [{ id := 0, source_filename := "a.mp3",
                 duration_seconds := get_audio_duration [1],
                 raw_text := "", status := .failed, created_at := 0 }],
            nextId := 1, now := 1 },
        outcome := .error (.transcriptionFailed "boom"), env := [] } :=
  api_failure_records_failed_row _ "a.mp3" [1] "boom" []
    (validate_ok_of_bounds [1] "a.mp3" (by decide) (by decide))

/-- C4: when validation passes, the API returns `text` and the insert
commits, the stored row carries `raw_text = text.trim` (surrounding
whitespace removed, the empty result being permitted), `status=completed`,
and the call returns the generated id of that row with the trimmed text. -/
theorem api_success_stores_trimmed (db : Store) (filename : String)
    (audio_bytes : List Nat) (text : String) (rest : List (Option String))
    (hv : validate_audio_file audio_bytes filename = .ok ()) :
    transcribe_and_store db filename audio_bytes (.ok text) (none :: rest) =
      { store :=
          { rows := db.rows ++
              [{ id := db.nextId, source_filename := filename,
                 duration_seconds := get_audio_duration audio_bytes,
                 raw_text := text.trim, status := .completed,
                 created_at := db.now }],
            nextId := db.nextId + 1, now := db.now + 1 },
        outcome := .ok (db.nextId, text.trim), env := rest } := by
  simp [transcribe_and_store, hv, create_transcript, strip_eq_trim]

/-- C4 witness: the API answer with surrounding whitespace is stored
trimmed together with status completed. -/
theorem api_success_stores_trimmed_witness :
    transcribe_and_store { rows := [], nextId := 0, now := 0 } "a.mp3" [1]
        (.ok "  hello world  ") (none :: []) =
      { store :=
          { rows := [] ++
              [{ id := 0, source_filename := "a.mp3",
                 duration_seconds := get_audio_duration [1],
                 raw_text := ("  hello world  " : String).trim,
                 status := .completed, created_at := 0 }],
            nextId := 1, now := 1 },
        outcome := .ok (0, ("  hello world  " : String).trim), env := [] } :=
  api_success_stores_trimmed _ "a.mp3" [1] "  hello world  " []
    (validate_ok_of_bounds [1] "a.mp3" (by decide) (by decide))

/-- C5: a database failure while persisting the completed record surfaces
`StorageFailed` wrapping the database error; the single failed outcome is
the only persistence attempt consumed (no retry) and the store is left as
the rollback left it. -/
theorem storage_failure_surfaces (db : Store) (filename : String)
    (audio_bytes : List Nat) (text msg : String) (rest : List (Option String))
    (hv : validate_audio_file audio_bytes filename = .ok ()) :
    transcribe_and_store db filename audio_bytes (.ok text) (some msg :: rest) =
      { store := db, outcome := .error (.storageFailed msg), env := rest } := by
  simp [transcribe_and_store, hv, create_transcript]

/-- C5 witness: a concrete database failure after a successful API call. -/
theorem storage_failure_surfaces_witness :
    transcribe_and_store { rows := [], nextId := 0, now := 0 } "a.mp3" [1]
        (.ok "hello") (some "disk full" :: []) =
      { store := { rows := [], nextId := 0, now := 0 },
        outcome := .error (.storageFailed "disk full"), env := [] } :=
  storage_failure_surfaces _ "a.mp3" [1] "hello" "disk full" []
    (validate_ok_of_bounds [1] "a.mp3" (by decide) (by decide))

/-- C10: a database error while persisting the failed-evidence record
propagates unwrapped (not as `TranscriptionFailed`), and the rollback
leaves no failed row in the store. -/
theorem failed_row_persist_error_propagates (db : Store) (filename : String)
    (audio_bytes : List Nat) (e msg : String) (rest : List (Option String))
    (hv : validate_audio_file audio_bytes filename = .ok ()) :
    transcribe_and_store db filename audio_bytes (.error e) (some msg :: rest) =
      { store := db, outcome := .error (.dbError msg), env := rest } := by
  simp [transcribe_and_store, hv, create_transcript]

/-- C10 witness: a concrete database error shadowing the API error. -/
theorem failed_row_persist_error_propagates_witness :
    transcribe_and_store { rows := [], nextId := 0, now := 0 } "a.mp3" [1]
        (.error "boom") (some "db down" :: []) =
      { store := { rows := [], nextId := 0, now := 0 },
        outcome := .error (.dbError "db down"), env := [] } :=
  failed_row_persist_error_propagates _ "a.mp3" [1] "boom" "db down" []
    (validate_ok_of_bounds [1] "a.mp3" (by decide) (by decide))

/-- C9: in every branch of `transcribe_and_store`, any row the call adds
to the store has `duration_seconds = 0`, and the stubbed duration function
returns 0 on every byte string (hence the field is always non-negative). -/
theorem duration_always_zero (db : Store) (filename : String)
    (audio_bytes : List Nat) (api : Except String String)
    (env : List (Option String)) (r : Transcript)
    (hmem : r ∈ (transcribe_and_store db filename audio_bytes api env).store.rows)
    (hnew : r ∉ db.rows) :
    r.duration_seconds = 0 ∧ get_audio_duration audio_bytes = 0 := by
  refine ⟨?_, rfl⟩
  unfold transcribe_and_store at hmem
  cases hval : validate_audio_file audio_bytes filename with
  | error m =>
    rw [hval] at hmem
    exact absurd hmem hnew
  | ok u =>
    cases u
    rw [hval] at hmem
    cases api with
    | error e =>
      unfold create_transcript at hmem
      cases henv : env.headD none with
      | some msg =>
        rw [henv] at hmem
        exact absurd hmem hnew
      | none =>
        rw [henv] at hmem
        simp at hmem
        rcases hmem with hold | hr
        · exact absurd hold hnew
        · simp [hr, get_audio_duration]
    | ok text =>
      unfold create_transcript at hmem
      cases henv : env.headD none with
      | some msg =>
        rw [henv] at hmem
        exact absurd hmem hnew
      | none =>
        rw [henv] at hmem
        simp at hmem
        rcases hmem with hold | hr
        · exact absurd hold hnew
        · simp [hr, get_audio_duration]

/-- C9 witness: the failed row written for a concrete erroring API call
has duration 0. -/
theorem duration_always_zero_witness :
    ({ id := 0, source_filename := "a.mp3", duration_seconds := 0,
       raw_text := "", status := .failed,
       created_at := 0 } : Transcript).duration_seconds = 0 ∧
      get_audio_duration [1] = 0 :=
  duration_always_zero { rows := [], nextId := 0, now := 0 } "a.mp3" [1]
    (.error "boom") []
    { id := 0, source_filename := "a.mp3", duration_seconds := 0,
      raw_text := "", status := .failed, created_at := 0 }
    (by simp [transcribe_and_store, validate_audio_file, MAX_FILE_SIZE,
              create_transcript, get_audio_duration])
    (by simp)


/-- C7: creating a record and fetching it by its id returns exactly the
created value: all caller-supplied fields are identical to the input, and
the server-assigned id and timestamp are present and consistent across the
value returned by the create and by the fetch. -/
theorem create_then_get_round_trip (db : Store) (t : TranscriptCreate)
    (rest : List (Option String)) (hwf : db.WF) :
    ∃ db2 row,
      create_transcript db t (none :: rest) = (.ok (db2, row), rest) ∧
      get_transcript_by_id db2 row.id = some row ∧
      row.source_filename = t.source_filename ∧
      row.duration_seconds = t.duration_seconds ∧
      row.raw_text = t.raw_text ∧
      row.status = t.status ∧
      row.id = db.nextId ∧ row.created_at = db.now := by
  refine ⟨_, _, rfl, ?_, rfl, rfl, rfl, rfl, rfl, rfl⟩
  unfold get_transcript_by_id
  show ((db.rows ++ [_]).find? _) = _
  rw [List.find?_append]
  have hnone : db.rows.find? (fun r => r.id == db.nextId) = none := by
    rw [List.find?_eq_none]
    intro r hr
    have h1 := (hwf r hr).1
    simp only [beq_iff_eq]
    omega
  rw [hnone]
  simp

/-- C7 witness: round trip through a concrete empty store. -/
theorem create_then_get_round_trip_witness :
    ∃ db2 row,
      create_transcript { rows := [], nextId := 0, now := 0 }
          { source_filename := "a.mp3", duration_seconds := 0,
            raw_text := "hi", status := .completed } (none :: []) =
        (.ok (db2, row), []) ∧
      get_transcript_by_id db2 row.id = some row ∧
      row.source_filename = "a.mp3" ∧
      row.duration_seconds = 0 ∧
      row.raw_text = "hi" ∧
      row.status = .completed ∧
      row.id = 0 ∧ row.created_at = 0 :=
  create_then_get_round_trip { rows := [], nextId := 0, now := 0 }
    { source_filename := "a.mp3", duration_seconds := 0,
      raw_text := "hi", status := .completed } []
    (by intro r hr; exact absurd hr (List.not_mem_nil r))


/-- Transitivity of the descending created-at comparator. -/
theorem created_desc_trans (a b c : Transcript) :
    created_desc a b = true → created_desc b c = true →
    created_desc a c = true := by
  simp only [created_desc, decide_eq_true_eq]
  omega

/-- Totality of the descending created-at comparator. -/
theorem created_desc_total (a b : Transcript) :
    (created_desc a b || created_desc b a) = true := by
  simp only [created_desc, Bool.or_eq_true, decide_eq_true_eq]
  omega

/-- A row strictly newer than every other row is placed first by the
descending sort, whatever positive limit is applied. -/
theorem head_of_sort_fresh (rows : List Transcript) (row : Transcript)
    (hfresh : ∀ r ∈ rows, r.created_at < row.created_at) (m : Nat) :
    (((rows ++ [row]).mergeSort created_desc).take (m + 1)).head? = some row := by
  have hperm := List.mergeSort_perm (rows ++ [row]) created_desc
  have hsort := List.sorted_mergeSort created_desc_trans created_desc_total
    (rows ++ [row])
  cases hLc : (rows ++ [row]).mergeSort created_desc with
  | nil =>
    have hlen := hperm.length_eq
    rw [hLc] at hlen
    simp at hlen
  | cons h tl =>
    rw [hLc] at hperm hsort
    simp only [List.take_succ_cons, List.head?_cons, Option.some.injEq]
    have hmemh : h ∈ rows ++ [row] := hperm.mem_iff.mp (List.mem_cons_self h tl)
    have hmemrow : row ∈ h :: tl := hperm.mem_iff.mpr (by simp)
    rcases List.mem_cons.mp hmemrow with heq | htail
    · exact heq.symm
    · rcases List.mem_append.mp hmemh with hold | hnewm
      · have hle := (List.pairwise_cons.mp hsort).1 row htail
        have hlt := hfresh h hold
        simp only [created_desc, decide_eq_true_eq] at hle
        omega
      · simpa using hnewm

/-- C6: listing returns at most `limit` rows, in descending `created_at`
order, and equals the full descending ordering with the first `skip` rows
removed and then cut to `limit`; moreover on a well-formed store a freshly
created row comes first when re-listing from the top. -/
theorem list_transcripts_ordered (db : Store) (skip limit : Nat)
    (t : TranscriptCreate) (rest : List (Option String)) :
    (get_all_transcripts db skip limit).length ≤ limit ∧
    (get_all_transcripts db skip limit).Pairwise
      (fun a b => b.created_at ≤ a.created_at) ∧
    get_all_transcripts db skip limit =
      ((get_all_transcripts db 0 db.rows.length).drop skip).take limit ∧
    (db.WF → 0 < limit →
      ∀ db2 row,
        create_transcript db t (none :: rest) = (.ok (db2, row), rest) →
        (get_all_transcripts db2 0 limit).head? = some row) := by
  refine ⟨?_, ?_, ?_, ?_⟩
  · simp only [get_all_transcripts, List.length_take]
    omega
  · have hs := List.sorted_mergeSort created_desc_trans created_desc_total db.rows
    have hsub : List.Sublist
        (((db.rows.mergeSort created_desc).drop skip).take limit)
        (db.rows.mergeSort created_desc) :=
      (List.take_sublist _ _).trans (List.drop_sublist _ _)
    have hp := hs.sublist hsub
    simp only [get_all_transcripts]
    exact hp.imp (fun h => by simpa [created_desc] using h)
  · simp only [get_all_transcripts, List.drop_zero]
    have hl : db.rows.length = (db.rows.mergeSort created_desc).length :=
      (List.length_mergeSort db.rows).symm
    rw [hl, List.take_length]
  · intro hwf hlim db2 row hcr
    simp only [create_transcript, List.headD_cons, List.tail_cons,
      Prod.mk.injEq, Except.ok.injEq, and_true] at hcr
    obtain ⟨hdb2, hrow⟩ := hcr
    subst hdb2
    subst hrow
    cases limit with
    | zero => omega
    | succ m =>
      simp only [get_all_transcripts, List.drop_zero]
      exact head_of_sort_fresh db.rows _
        (fun r hr => by simpa using (hwf r hr).2) m

/-- C6 witness: creating a first row in the empty store and re-listing
with limit 5 places that row first. -/
theorem list_transcripts_ordered_witness :
    (get_all_transcripts
      { rows := [{ id := 0, source_filename := "a.mp3", duration_seconds := 0,
                   raw_text := "hi", status := .completed, created_at := 0 }],
        nextId := 1, now := 1 } 0 5).head? =
      some { id := 0, source_filename := "a.mp3", duration_seconds := 0,
             raw_text := "hi", status := .completed, created_at := 0 } :=
  (list_transcripts_ordered { rows := [], nextId := 0, now := 0 } 0 5
      { source_filename := "a.mp3", duration_seconds := 0,
        raw_text := "hi", status := .completed } []).2.2.2
    (fun r hr => absurd hr (List.not_mem_nil r)) (by decide)
    { rows := [{ id := 0, source_filename := "a.mp3", duration_seconds := 0,
                 raw_text := "hi", status := .completed, created_at := 0 }],
      nextId := 1, now := 1 }
    { id := 0, source_filename := "a.mp3", duration_seconds := 0,
      raw_text := "hi", status := .completed, created_at := 0 }
    rfl

end Whisper
